import Mathlib

/-!
# Verification of the osm-tools MCP server core

Shallow embedding of the request-dispatch core of the `osm-tools`
repository: the response envelope, the tool registry, the `tools/call`
dispatcher, and the four upstream adapters (geocode, reverse_geocode,
poi_search, route).

Modelling conventions:
* JavaScript strings are `String`; optional JSON keys are `Option`;
  JSON objects with significant insertion order are association lists.
* JSON numbers that the code does arithmetic on (distances, durations)
  are `ℚ`; upstream decimal-string coordinates that the code merely
  converts with `parseFloat` and passes through are also `ℚ` (the
  string/float round-trip itself is not load-bearing for any claim).
* Coordinates that the code only ever interpolates into a URL or query
  string are modelled by their rendered decimal `String`s, since the
  adapters never compute with them.
* `async`/`await` and exceptions are modelled by passing the outcome of
  the single upstream fetch (a parsed response, or a thrown message)
  into the adapter as an explicit `FetchOutcome` argument; the
  `retrieved_at` timestamp is an explicit `now : String` argument.
-/

set_option autoImplicit false

namespace OsmTools

/-- JavaScript `a || b` on an optional string: `b` when `a` is absent or
empty (falsy), else the string itself.  Used by `buildInstruction`
(`modifier || 'ahead'`) and step-name defaulting (`step.name || ''`). -/
def jsOr (a : Option String) (b : String) : String :=
  match a with
  | none => b
  | some s => if s = "" then b else s

/-- JavaScript `String.prototype.trim`: strip leading and trailing
whitespace.  (Defined structurally over the character list so that it
evaluates by reduction.) -/
def jsTrim (s : String) : String :=
  ⟨((s.toList.dropWhile Char.isWhitespace).reverse.dropWhile
      Char.isWhitespace).reverse⟩

/-- Substring test, modelling JavaScript `String.prototype.includes` /
"the message contains ...". -/
def containsStr (s pat : String) : Bool :=
  decide (pat.toList <:+: s.toList)

/-! ## Response envelope (src/types.ts) -/

/-- `error: {code, message}` of an `ErrorResponse`. -/
structure ErrorInfo where
  code : String
  message : String
  deriving Repr, DecidableEq

/-- `ResponseMeta`: `source?`, `retrieved_at`, `pagination?` (modelled as
`some next_cursor` when the key is present), `warnings`. -/
structure ResponseMeta where
  source : Option String
  retrieved_at : String
  pagination : Option (Option String)
  warnings : List String
  deriving Repr, DecidableEq

/-- The tagged union `SuccessResponse<T> | ErrorResponse`
(`{ok:true,data,meta}` vs `{ok:false,error,meta}`). -/
inductive Response (α : Type) where
  | success (data : α) (meta : ResponseMeta)
  | failure (error : ErrorInfo) (meta : ResponseMeta)
  deriving Repr, DecidableEq

/-- The `ok` discriminator of the envelope. -/
def Response.ok {α : Type} : Response α → Bool
  | .success _ _ => true
  | .failure _ _ => false

/-- The `meta` block of either variant. -/
def Response.meta {α : Type} : Response α → ResponseMeta
  | .success _ m => m
  | .failure _ m => m

/-- The `error.code` of an error envelope, if any. -/
def Response.errCode {α : Type} : Response α → Option String
  | .success _ _ => none
  | .failure e _ => some e.code

/-- The `error.message` of an error envelope, if any. -/
def Response.errMessage {α : Type} : Response α → Option String
  | .success _ _ => none
  | .failure e _ => some e.message

/-! ## Upstream HTTP model -/

/-- A settled `fetch` response with parsed JSON body `β`.  `statusText`
is the HTTP reason phrase; `bodyText` is the raw body as returned by
`response.text()` (only the poi adapter reads it). -/
structure HttpResponse (β : Type) where
  status : Nat
  statusText : String
  bodyText : String
  body : β

/-- JavaScript `Response.ok`: status in the 2xx range. -/
def HttpResponse.isOk {β : Type} (r : HttpResponse β) : Bool :=
  200 ≤ r.status && r.status < 300

/-- Outcome of the adapter's single `await fetchWithThrottle(...)` plus
body parse: either a settled response, or a thrown error whose
`.message` is `some msg` (a non-`Error` throw carries `none`, rendered
as `"Unknown error"` by every catch block). -/
inductive FetchOutcome (β : Type) where
  | ok (resp : HttpResponse β)
  | threw (message : Option String)

/-- `error instanceof Error ? error.message : 'Unknown error'`. -/
def jsErrorMessage (m : Option String) : String :=
  m.getD "Unknown error"

/-! ## Tool registry (src/tools/index.ts) -/

/-- A registry entry of `ToolDefinition` (name, description).  The
`inputSchema` and `handler` fields are modelled separately: validation
and handler execution appear as the `HandlerOutcome` fed to the
dispatcher, and as the adapter functions below. -/
structure ToolDefinition where
  name : String
  description : String
  deriving Repr, DecidableEq

/-- `geocodeTool` descriptor. -/
def geocodeTool : ToolDefinition :=
  { name := "geocode"
    description := "Forward geocoding: search for a location by address or place name. Returns latitude/longitude coordinates and address details. Supports optional bounding box and country filters." }

/-- `reverseGeocodeTool` descriptor. -/
def reverseGeocodeTool : ToolDefinition :=
  { name := "reverse_geocode"
    description := "Reverse geocoding: get a human-readable address from latitude/longitude coordinates. Returns the full display name and detailed address breakdown." }

/-- `poiSearchTool` descriptor. -/
def poiSearchTool : ToolDefinition :=
  { name := "poi_search"
    description := "Search for Points of Interest using OpenStreetMap Overpass API. Filter by OSM tags (e.g., \x7b\"amenity\": \"restaurant\"\x7d) within a bounding box or around a center point (1km radius)." }

/-- `routeTool` descriptor. -/
def routeTool : ToolDefinition :=
  { name := "route"
    description := "Calculate a route between two points using OSRM. Supports driving, cycling, and walking modes. Returns distance, duration, encoded polyline geometry, and turn-by-turn instructions." }

/-- `export const tools: ToolDefinition[] = [geocodeTool, reverseGeocodeTool, poiSearchTool, routeTool]`. -/
def tools : List ToolDefinition :=
  [geocodeTool, reverseGeocodeTool, poiSearchTool, routeTool]

/-- `getTool(name)`: first registry entry whose `name` matches exactly. -/
def getTool (name : String) : Option ToolDefinition :=
  tools.find? (fun tool => tool.name == name)

/-- The `tools/list` handler's payload: `{name, description}` pairs in
registry order (the rendered JSON schema is not modelled). -/
def listTools : List (String × String) :=
  tools.map (fun tool => (tool.name, tool.description))

/-! ## JSON-RPC dispatcher (src/server.ts) -/

/-- One issue of a thrown `ZodError`: a field `path` (segments joined
with `.` in the message) and a `message`. -/
structure ZodIssue where
  path : List String
  message : String
  deriving Repr, DecidableEq

/-- Outcome of `await tool.handler(args)` for a registered tool: the
handler returned an envelope, or threw a `ZodError` (its input schema
rejected `args`), or threw some other error. -/
inductive HandlerOutcome (α : Type) where
  | returned (env : Response α)
  | threwZod (issues : List ZodIssue)
  | threwOther (message : Option String)

/-- The `{content, isError}` value the `tools/call` request handler
returns; `payload` is the envelope serialized into the single text
content block. -/
structure CallToolResult (α : Type) where
  payload : Response α
  isError : Bool
  deriving Repr, DecidableEq

/-- The meta block `{retrieved_at, warnings: []}` the dispatcher stamps
on the envelopes it builds itself (no `source`, no `pagination`). -/
def dispatcherMeta (now : String) : ResponseMeta :=
  { source := none, retrieved_at := now, pagination := none, warnings := [] }

/-- `error.errors.map(e => path.join('.') + ': ' + message).join(', ')`
prefixed by `Invalid input: ` — the `VALIDATION_ERROR` message. -/
def validationMessage (issues : List ZodIssue) : String :=
  "Invalid input: " ++
    String.intercalate ", "
      (issues.map (fun i => String.intercalate "." i.path ++ ": " ++ i.message))

/-- The body of the `CallToolRequestSchema` handler in `createServer`:
look the tool up; unknown names return an `UNKNOWN_TOOL` envelope with
`isError:true`; otherwise run the handler, passing envelopes through
with `isError = !result.ok` and folding thrown errors into
`VALIDATION_ERROR` / `INTERNAL_ERROR` envelopes.  `run` stands for
`await tool.handler(args)`. -/
def dispatchToolCall {α : Type} (name : String) (now : String)
    (run : ToolDefinition → HandlerOutcome α) : CallToolResult α :=
  match getTool name with
  | none =>
    { payload := .failure
        { code := "UNKNOWN_TOOL", message := "Unknown tool: " ++ name }
        (dispatcherMeta now)
      isError := true }
  | some tool =>
    match run tool with
    | .returned env => { payload := env, isError := !env.ok }
    | .threwZod issues =>
      { payload := .failure
          { code := "VALIDATION_ERROR", message := validationMessage issues }
          (dispatcherMeta now)
        isError := true }
    | .threwOther msg =>
      { payload := .failure
          { code := "INTERNAL_ERROR", message := jsErrorMessage msg }
          (dispatcherMeta now)
        isError := true }

/-- A JSON-RPC response to a `tools/call` request: a successful `result`
carrying the handler's value, or a protocol-level `error {code, message}`. -/
inductive JsonRpcResponse (α : Type) where
  | result (r : CallToolResult α)
  | protocolError (code : Int) (message : String)
  deriving Repr, DecidableEq

/-- Modelled from the spec: the JSON-RPC layer (the MCP SDK `Server`,
not part of src/) wraps a value returned by the registered `tools/call`
request handler verbatim as a JSON-RPC `result`; only an exception
escaping the handler becomes a protocol-level error (`-32603`). -/
def wrapHandler {α : Type} (out : Except (Option String) (CallToolResult α)) :
    JsonRpcResponse α :=
  match out with
  | .ok r => .result r
  | .error m => .protocolError (-32603) ("Internal error: " ++ jsErrorMessage m)

/-- Full handling of a `tools/call` request: the registered handler in
`createServer` returns on every path (its body is wrapped in
`try`/`catch`), so the JSON-RPC layer always sees a returned value. -/
def handleCallTool {α : Type} (name : String) (now : String)
    (run : ToolDefinition → HandlerOutcome α) : JsonRpcResponse α :=
  wrapHandler (.ok (dispatchToolCall name now run))

/-! ## Route adapter (src/tools/route.ts) -/

/-- The validated `mode` enum of `RouteInputSchema`. -/
inductive TravelMode where
  | driving
  | cycling
  | walking
  deriving Repr, DecidableEq

/-- `getOsrmProfile`: map mode names to OSRM profile names.  (The
source's `default: return 'car'` arm is unreachable once the enum is
enforced, and has no counterpart in the exhaustive match.) -/
def getOsrmProfile : TravelMode → String
  | .driving => "car"
  | .cycling => "bike"
  | .walking => "foot"

/-- Validated `RouteInput`.  Start/end are `[lat, lon]` pairs, modelled
by their rendered decimal strings: the adapter only ever interpolates
them into the request URL. -/
structure RouteInput where
  start : String × String
  stop : String × String
  mode : TravelMode

/-- The OSRM request URL built inside `route`:
`${config.osrmUrl}/route/v1/${profile}/${start[1]},${start[0]};${end[1]},${end[0]}?...`
— note the lon,lat axis swap. -/
def routeUrl (osrmUrl : String) (input : RouteInput) : String :=
  osrmUrl ++ "/route/v1/" ++ getOsrmProfile input.mode ++ "/" ++
    (input.start.2 ++ "," ++ input.start.1) ++ ";" ++
    (input.stop.2 ++ "," ++ input.stop.1) ++
    "?overview=full&geometries=polyline&steps=true"

/-- An OSRM step's `maneuver`: a `type` and an optional `modifier`. -/
structure Maneuver where
  type : String
  modifier : Option String
  deriving Repr, DecidableEq

/-- `buildInstruction`: the fixed maneuver→text lookup table.  String
interpolation of `modifier || '...'` follows JavaScript truthiness via
`jsOr`. -/
def buildInstruction (maneuver : Maneuver) : String :=
  match maneuver.type with
  | "depart" => "Depart"
  | "arrive" => "Arrive at destination"
  | "turn" => "Turn " ++ jsOr maneuver.modifier "ahead"
  | "continue" => "Continue straight"
  | "merge" => jsTrim ("Merge " ++ jsOr maneuver.modifier "")
  | "fork" => "Take the " ++ jsOr maneuver.modifier "fork"
  | "roundabout" => "Enter roundabout"
  | "exit roundabout" => "Exit roundabout"
  | "new name" => "Continue"
  | "end of road" => "At end of road, turn " ++ jsOr maneuver.modifier "ahead"
  | "notification" => jsOr maneuver.modifier "Continue"
  | t => match maneuver.modifier with
         | some m => if m = "" then t else t ++ " " ++ m
         | none => t

/-- One OSRM step: maneuver, distance (m), duration (s), road name. -/
structure OsrmStep where
  maneuver : Maneuver
  distance : ℚ
  duration : ℚ
  name : Option String

/-- One OSRM leg: its steps and textual summary. -/
structure OsrmLeg where
  steps : List OsrmStep
  summary : String

/-- One OSRM candidate route. -/
structure OsrmRoute where
  distance : ℚ
  duration : ℚ
  geometry : String
  legs : List OsrmLeg

/-- The parsed OSRM response body (`{code, routes}`); an absent
`routes` key is modelled as the empty list, which the source treats
identically (`!data.routes || data.routes.length === 0`). -/
structure OsrmResponse where
  code : String
  routes : List OsrmRoute

/-- One mapped `RouteStep` of the tool output. -/
structure RouteStep where
  instruction : String
  distance_m : ℚ
  duration_s : ℚ
  name : String
  deriving Repr, DecidableEq

/-- The mapped `RouteResult` of the tool output. -/
structure RouteResult where
  distance_km : ℚ
  duration_minutes : ℚ
  geometry : String
  steps : List RouteStep
  summary : String
  deriving Repr, DecidableEq

/-- Error-path meta of the route adapter. -/
def osrmErrMeta (now : String) : ResponseMeta :=
  { source := some "osrm", retrieved_at := now, pagination := none, warnings := [] }

/-- Success-path meta of the route adapter. -/
def osrmOkMeta (now : String) : ResponseMeta :=
  { source := some "osrm", retrieved_at := now, pagination := some none, warnings := [] }

/-- Flatten all legs' steps into `RouteStep`s (`step.name || ''`). -/
def routeSteps (legs : List OsrmLeg) : List RouteStep :=
  legs.flatMap (fun leg => leg.steps.map (fun step =>
    { instruction := buildInstruction step.maneuver
      distance_m := step.distance
      duration_s := step.duration
      name := jsOr step.name "" }))

/-- The response-processing part of `route` (everything after the
fetch): non-2xx → `OSRM_ERROR`; `code !== 'Ok'` → `OSRM_ROUTE_ERROR`;
empty route list → `OSRM_NO_ROUTE`; otherwise map the first route,
converting m→km and s→min; a thrown fetch/parse error → `ROUTE_ERROR`. -/
def route (outcome : FetchOutcome OsrmResponse) (now : String) :
    Response RouteResult :=
  match outcome with
  | .threw msg =>
    .failure
      { code := "ROUTE_ERROR"
        message := "Failed to calculate route: " ++ jsErrorMessage msg }
      (osrmErrMeta now)
  | .ok resp =>
    if !resp.isOk then
      .failure
        { code := "OSRM_ERROR"
          message := "OSRM API returned " ++ toString resp.status ++ ": " ++
            resp.statusText }
        (osrmErrMeta now)
    else if resp.body.code ≠ "Ok" then
      .failure
        { code := "OSRM_ROUTE_ERROR"
          message := "OSRM could not calculate route: " ++ resp.body.code }
        (osrmErrMeta now)
    else
      match resp.body.routes with
      | [] =>
        .failure
          { code := "OSRM_NO_ROUTE"
            message := "No route found between the specified points" }
          (osrmErrMeta now)
      | osrmRoute :: _ =>
        .success
          { distance_km := osrmRoute.distance / 1000
            duration_minutes := osrmRoute.duration / 60
            geometry := osrmRoute.geometry
            steps := routeSteps osrmRoute.legs
            summary := String.intercalate " via "
              (osrmRoute.legs.map (fun leg => leg.summary)) }
          (osrmOkMeta now)

/-! ## Geocode adapter (src/tools/geocode.ts) -/

/-- Validated `GeocodeInput` (bbox/country feed only the request URL,
which no claim concerns; they are carried for completeness). -/
structure GeocodeInput where
  query : String
  bbox : Option (String × String × String × String)
  country : Option String

/-- One raw Nominatim search record.  Upstream serializes `lat`/`lon`
as decimal strings and the adapter converts them with `parseFloat`;
the round-trip is modelled as the identity on the numeric value. -/
structure NominatimSearchResult where
  lat : ℚ
  lon : ℚ
  display_name : String
  type : String
  importance : ℚ
  place_id : Nat
  osm_type : Option String
  osm_id : Option Nat
  boundingbox : Option (String × String × String × String)

/-- One mapped `GeocodeResult` of the tool output. -/
structure GeocodeResult where
  lat : ℚ
  lon : ℚ
  display_name : String
  type : String
  importance : ℚ
  place_id : Nat
  osm_type : Option String
  osm_id : Option Nat
  boundingbox : Option (String × String × String × String)
  deriving DecidableEq

/-- Error-path meta of the two Nominatim adapters. -/
def nominatimErrMeta (now : String) : ResponseMeta :=
  { source := some "nominatim", retrieved_at := now, pagination := none,
    warnings := [] }

/-- Success-path meta of the two Nominatim adapters. -/
def nominatimOkMeta (now : String) : ResponseMeta :=
  { source := some "nominatim", retrieved_at := now, pagination := some none,
    warnings := [] }

/-- Field mapping of one raw search record. -/
def mapGeocodeResult (r : NominatimSearchResult) : GeocodeResult :=
  { lat := r.lat, lon := r.lon, display_name := r.display_name,
    type := r.type, importance := r.importance, place_id := r.place_id,
    osm_type := r.osm_type, osm_id := r.osm_id, boundingbox := r.boundingbox }

/-- The response-processing part of `geocode`: non-2xx →
`NOMINATIM_ERROR`; otherwise map every raw record; thrown errors →
`GEOCODE_ERROR`.  (URL construction is not modelled: no claim concerns
it.) -/
def geocode (_input : GeocodeInput)
    (outcome : FetchOutcome (List NominatimSearchResult)) (now : String) :
    Response (List GeocodeResult) :=
  match outcome with
  | .threw msg =>
    .failure
      { code := "GEOCODE_ERROR"
        message := "Failed to geocode: " ++ jsErrorMessage msg }
      (nominatimErrMeta now)
  | .ok resp =>
    if !resp.isOk then
      .failure
        { code := "NOMINATIM_ERROR"
          message := "Nominatim API returned " ++ toString resp.status ++ ": " ++
            resp.statusText }
        (nominatimErrMeta now)
    else
      .success (resp.body.map mapGeocodeResult) (nominatimOkMeta now)

/-! ## Reverse-geocode adapter (src/tools/reverse.ts) -/

/-- Validated `ReverseGeocodeInput` (feeds only the request URL). -/
structure ReverseGeocodeInput where
  lat : String
  lon : String

/-- The raw Nominatim reverse result.  `error = some _` models the
presence of the `error` key (`'error' in rawResult`); the remaining
fields model the place record (meaningful when `error` is absent). -/
structure NominatimReverseResult where
  error : Option String
  lat : ℚ
  lon : ℚ
  display_name : String
  address : List (String × String)
  place_id : Nat
  osm_type : Option String
  osm_id : Option Nat

/-- The mapped single `ReverseGeocodeResult` of the tool output; the
structured `address` object is passed through verbatim (modelled as an
association list). -/
structure ReverseGeocodeResult where
  lat : ℚ
  lon : ℚ
  display_name : String
  address : List (String × String)
  place_id : Nat
  osm_type : Option String
  osm_id : Option Nat
  deriving DecidableEq

/-- Field mapping of the raw reverse record. -/
def mapReverseResult (r : NominatimReverseResult) : ReverseGeocodeResult :=
  { lat := r.lat, lon := r.lon, display_name := r.display_name,
    address := r.address, place_id := r.place_id, osm_type := r.osm_type,
    osm_id := r.osm_id }

/-- The response-processing part of `reverseGeocode`: non-2xx →
`NOMINATIM_ERROR`; a 2xx body carrying an `error` key →
`NOMINATIM_NOT_FOUND`; otherwise the single mapped record; thrown
errors → `REVERSE_GEOCODE_ERROR`. -/
def reverseGeocode (_input : ReverseGeocodeInput)
    (outcome : FetchOutcome NominatimReverseResult) (now : String) :
    Response ReverseGeocodeResult :=
  match outcome with
  | .threw msg =>
    .failure
      { code := "REVERSE_GEOCODE_ERROR"
        message := "Failed to reverse geocode: " ++ jsErrorMessage msg }
      (nominatimErrMeta now)
  | .ok resp =>
    if !resp.isOk then
      .failure
        { code := "NOMINATIM_ERROR"
          message := "Nominatim API returned " ++ toString resp.status ++ ": " ++
            resp.statusText }
        (nominatimErrMeta now)
    else
      match resp.body.error with
      | some errText =>
        .failure
          { code := "NOMINATIM_NOT_FOUND"
            message := "No address found for coordinates: " ++ errText }
          (nominatimErrMeta now)
      | none =>
        .success (mapReverseResult resp.body) (nominatimOkMeta now)

/-! ## POI-search adapter (src/tools/poi.ts) -/

/-- Validated `PoiSearchInput`.  Coordinates are modelled by their
rendered decimal strings (they are only interpolated into the Overpass
query); `tags` is an insertion-ordered key/value map; `limit` is the
post-validation value (Zod default 25). -/
structure PoiSearchInput where
  center : Option (String × String)
  bbox : Option (String × String × String × String)
  tags : List (String × String)
  limit : Nat

/-- `buildOverpassQuery`: tag filters `["k"="v"]` in insertion order,
an area clause from bbox `(south,west,north,east)` or center
`(around:1000,lat,lon)`, and the node/way/relation union with
`out center ${limit}`.  The `throw new Error(...)` when neither area is
given is `Except.error` (caught by `poiSearch`). -/
def buildOverpassQuery (input : PoiSearchInput) : Except String String :=
  let tagFilters := String.join (input.tags.map (fun kv =>
    "[\"" ++ kv.1 ++ "\"=\"" ++ kv.2 ++ "\"]"))
  let areaSpec? : Except String String :=
    match input.bbox with
    | some (south, west, north, east) =>
      .ok ("(" ++ south ++ "," ++ west ++ "," ++ north ++ "," ++ east ++ ")")
    | none =>
      match input.center with
      | some (lat, lon) => .ok ("(around:1000," ++ lat ++ "," ++ lon ++ ")")
      | none => .error "Either center or bbox must be provided"
  match areaSpec? with
  | .error e => .error e
  | .ok areaSpec =>
    .ok (jsTrim ("\n[out:json][timeout:25];\n(\n  node" ++ tagFilters ++
      areaSpec ++ ";\n  way" ++ tagFilters ++ areaSpec ++ ";\n  relation" ++
      tagFilters ++ areaSpec ++ ";\n);\nout center " ++
      toString input.limit ++ "\n"))

/-- One raw Overpass element: optional direct `lat`/`lon`, optional
`center` sub-object, optional `tags` object, numeric `id`, and the
element kind string (`node`/`way`/`relation`). -/
structure OverpassElement where
  type : String
  id : Nat
  lat : Option ℚ
  lon : Option ℚ
  center : Option (ℚ × ℚ)
  tags : Option (List (String × String))

/-- The parsed Overpass response body. -/
structure OverpassResponse where
  elements : List OverpassElement

/-- `extractCoordinates`: direct `lat`/`lon` if both present, else the
`center` sub-object, else none. -/
def extractCoordinates (element : OverpassElement) : Option (ℚ × ℚ) :=
  match element.lat, element.lon with
  | some lat, some lon => some (lat, lon)
  | _, _ => element.center

/-- One mapped `PoiResult` of the tool output. -/
structure PoiResult where
  id : Nat
  name : Option String
  lat : ℚ
  lon : ℚ
  tags : List (String × String)
  type : String
  deriving DecidableEq

/-- The warning pushed for an element without coordinates. -/
def noCoordWarning (id : Nat) : String :=
  "Element " ++ toString id ++ " has no coordinates, skipping"

/-- `element.tags?.name ?? null`. -/
def elementName (element : OverpassElement) : Option String :=
  (element.tags.getD []).lookup "name"

/-- Map one element with resolved coordinates. -/
def mapPoiResult (element : OverpassElement) (coords : ℚ × ℚ) : PoiResult :=
  { id := element.id, name := elementName element, lat := coords.1,
    lon := coords.2, tags := element.tags.getD [], type := element.type }

/-- The result/warning accumulation loop of `poiSearch`: elements with
coordinates are mapped in order, the others contribute a warning in
order. -/
def poiCollect : List OverpassElement → List PoiResult × List String
  | [] => ([], [])
  | element :: rest =>
    let acc := poiCollect rest
    match extractCoordinates element with
    | none => (acc.1, noCoordWarning element.id :: acc.2)
    | some coords => (mapPoiResult element coords :: acc.1, acc.2)

/-- Error-path meta of the poi adapter with accumulated warnings. -/
def overpassErrMeta (now : String) (warnings : List String) : ResponseMeta :=
  { source := some "overpass", retrieved_at := now, pagination := none,
    warnings := warnings }

/-- Success-path meta of the poi adapter with accumulated warnings. -/
def overpassOkMeta (now : String) (warnings : List String) : ResponseMeta :=
  { source := some "overpass", retrieved_at := now, pagination := some none,
    warnings := warnings }

/-- `poiSearch` after input validation: a query-build throw →
`POI_SEARCH_ERROR`; non-2xx → `OVERPASS_ERROR` with the response *body
text* interpolated (`await response.text()`); otherwise the collection
loop, always a success envelope; a fetch/parse throw →
`POI_SEARCH_ERROR`. -/
def poiSearch (input : PoiSearchInput)
    (outcome : FetchOutcome OverpassResponse) (now : String) :
    Response (List PoiResult) :=
  match buildOverpassQuery input with
  | .error msg =>
    .failure
      { code := "POI_SEARCH_ERROR"
        message := "Failed to search POIs: " ++ msg }
      (overpassErrMeta now [])
  | .ok _query =>
    match outcome with
    | .threw msg =>
      .failure
        { code := "POI_SEARCH_ERROR"
          message := "Failed to search POIs: " ++ jsErrorMessage msg }
        (overpassErrMeta now [])
    | .ok resp =>
      if !resp.isOk then
        .failure
          { code := "OVERPASS_ERROR"
            message := "Overpass API returned " ++ toString resp.status ++
              ": " ++ resp.bodyText }
          (overpassErrMeta now [])
      else
        let acc := poiCollect resp.body.elements
        .success acc.1 (overpassOkMeta now acc.2)

/-- Whether a JSON-RPC response is a protocol-level error. -/
def JsonRpcResponse.isProtocolError {α : Type} : JsonRpcResponse α → Bool
  | .result _ => false
  | .protocolError _ _ => true

/-! ## Helper lemmas -/

/-- An element found by `find?` with a name-equality predicate has that
name. -/
theorem find_name_matches (l : List ToolDefinition) (n : String)
    (t : ToolDefinition) (h : l.find? (fun tool => tool.name == n) = some t) :
    t.name = n := by
  induction l with
  | nil => simp [List.find?] at h
  | cons a l ih =>
    cases hba : (a.name == n) <;> simp only [List.find?, hba] at h
    · exact ih h
    · cases h; exact eq_of_beq hba

/-! ## Claim theorems -/

/-- C6: `tools/list` always returns exactly 4 tool descriptors, named
`geocode`, `reverse_geocode`, `poi_search`, `route` in insertion order,
and `getTool` resolves a name by exact case-sensitive string match,
returning `none` for any other name. -/
theorem registry_list_and_lookup :
    listTools.map Prod.fst = ["geocode", "reverse_geocode", "poi_search", "route"] ∧
    tools.length = 4 ∧
    (∀ n t, getTool n = some t → t.name = n) ∧
    (∀ n, getTool n = some geocodeTool ↔ n = "geocode") ∧
    (∀ n, n ∉ ["geocode", "reverse_geocode", "poi_search", "route"] →
      getTool n = none) := by
  refine ⟨rfl, rfl, fun n t h => find_name_matches tools n t h, ?_, ?_⟩
  · intro n
    constructor
    · intro h
      have := find_name_matches tools n _ h
      simpa [geocodeTool] using this.symm
    · rintro rfl
      rfl
  · intro n hn
    simp only [List.mem_cons, List.not_mem_nil, or_false, not_or] at hn
    obtain ⟨h1, h2, h3, h4⟩ := hn
    have b1 : ("geocode" == n) = false :=
      beq_eq_false_iff_ne.mpr (fun e => h1 e.symm)
    have b2 : ("reverse_geocode" == n) = false :=
      beq_eq_false_iff_ne.mpr (fun e => h2 e.symm)
    have b3 : ("poi_search" == n) = false :=
      beq_eq_false_iff_ne.mpr (fun e => h3 e.symm)
    have b4 : ("route" == n) = false :=
      beq_eq_false_iff_ne.mpr (fun e => h4 e.symm)
    simp [getTool, tools, List.find?, geocodeTool, reverseGeocodeTool,
      poiSearchTool, routeTool, b1, b2, b3, b4]

/-- Witness for C6 at concrete names: the exact-match lookup is
case-sensitive (`"Geocode"` and `"GEOCODE"` resolve to nothing). -/
theorem registry_list_and_lookup_witness :
    getTool "Geocode" = none ∧ getTool "GEOCODE" = none ∧
    getTool "geocode" = some geocodeTool := by
  refine ⟨?_, ?_, ?_⟩
  · exact registry_list_and_lookup.2.2.2.2 "Geocode" (by decide)
  · exact registry_list_and_lookup.2.2.2.2 "GEOCODE" (by decide)
  · exact (registry_list_and_lookup.2.2.2.1 "geocode").mpr rfl

/-- C1 counterexample: at the concrete unknown tool name
`"nonexistent_tool"`, `tools/call` dispatch yields a successful JSON-RPC
`result` (an `UNKNOWN_TOOL` envelope with `isError:true`), not a
protocol-level `-32601` error as the claim states. -/
theorem unknown_tool_claim_counterexample :
    (handleCallTool (α := Unit) "nonexistent_tool" "2024-01-01T00:00:00.000Z"
        (fun _ => .threwOther none)).isProtocolError = false ∧
    handleCallTool (α := Unit) "nonexistent_tool" "2024-01-01T00:00:00.000Z"
        (fun _ => .threwOther none) =
      .result
        { payload := .failure
            { code := "UNKNOWN_TOOL"
              message := "Unknown tool: nonexistent_tool" }
            (dispatcherMeta "2024-01-01T00:00:00.000Z")
          isError := true } :=
  ⟨rfl, rfl⟩

/-- C1 (amended): for every `tools/call` request whose tool name is
absent from the registry, dispatch returns a successful JSON-RPC
`result` — never a protocol-level error — whose payload is an `ok:false`
envelope with `error.code = "UNKNOWN_TOOL"` and message
`"Unknown tool: {name}"` (containing the requested name), with
`isError:true` on the outer result wrapper. -/
theorem unknown_tool_envelope {α : Type} (name now : String)
    (run : ToolDefinition → HandlerOutcome α) (h : getTool name = none) :
    handleCallTool name now run =
      .result
        { payload := .failure
            { code := "UNKNOWN_TOOL", message := "Unknown tool: " ++ name }
            (dispatcherMeta now)
          isError := true } := by
  simp [handleCallTool, wrapHandler, dispatchToolCall, h]

/-- Witness for C1 (amended) at the concrete name `"nonexistent_tool"`. -/
theorem unknown_tool_envelope_witness :
    handleCallTool (α := Unit) "nonexistent_tool" "T0"
        (fun _ => .threwOther none) =
      .result
        { payload := .failure
            { code := "UNKNOWN_TOOL"
              message := "Unknown tool: nonexistent_tool" }
            (dispatcherMeta "T0")
          isError := true } :=
  unknown_tool_envelope "nonexistent_tool" "T0" (fun _ => .threwOther none) rfl

/-- C2: for every `tools/call` request naming a registered tool whose
arguments fail the tool's input-schema validation (the handler throws a
`ZodError`), dispatch returns a successful JSON-RPC `result` — never a
protocol-level error — whose payload is an envelope with `ok:false`,
`error.code = "VALIDATION_ERROR"`, a message listing every violated
field path and reason joined by `", "`, and `isError:true` on the outer
result wrapper. -/
theorem validation_failure_envelope {α : Type} (name now : String)
    (t : ToolDefinition) (issues : List ZodIssue)
    (run : ToolDefinition → HandlerOutcome α)
    (hfind : getTool name = some t) (hrun : run t = .threwZod issues) :
    handleCallTool name now run =
      .result
        { payload := .failure
            { code := "VALIDATION_ERROR"
              message := "Invalid input: " ++
                String.intercalate ", "
                  (issues.map (fun i =>
                    String.intercalate "." i.path ++ ": " ++ i.message)) }
            (dispatcherMeta now)
          isError := true } := by
  simp [handleCallTool, wrapHandler, dispatchToolCall, hfind, hrun,
    validationMessage]

/-- Witness for C2: a concrete call to `geocode` whose handler rejects
two fields produces the joined `VALIDATION_ERROR` message. -/
theorem validation_failure_envelope_witness :
    handleCallTool (α := Unit) "geocode" "T0"
        (fun _ => .threwZod
          [{ path := ["query"], message := "Required" },
           { path := ["bbox", "0"], message := "Expected number" }]) =
      .result
        { payload := .failure
            { code := "VALIDATION_ERROR"
              message :=
                "Invalid input: query: Required, bbox.0: Expected number" }
            (dispatcherMeta "T0")
          isError := true } :=
  validation_failure_envelope "geocode" "T0" geocodeTool
    [{ path := ["query"], message := "Required" },
     { path := ["bbox", "0"], message := "Expected number" }]
    (fun _ => .threwZod
      [{ path := ["query"], message := "Required" },
       { path := ["bbox", "0"], message := "Expected number" }])
    rfl rfl

/-- String concatenation is associative. -/
theorem strAppend_assoc (a b c : String) : (a ++ b) ++ c = a ++ (b ++ c) := by
  cases a with | mk da =>
  cases b with | mk db =>
  cases c with | mk dc =>
  show String.mk ((da ++ db) ++ dc) = String.mk (da ++ (db ++ dc))
  rw [List.append_assoc]

set_option maxRecDepth 20000 in
/-- C4: for every route input, the upstream OSRM request URL contains
the start and end coordinates in swapped lon,lat order; at the claim's
concrete input `start:[40.7128,-74.006]` the URL contains
`"-74.006,40.7128"` and not `"40.7128,-74.006"`. -/
theorem route_url_lonlat_swap :
    (∀ (base : String) (input : RouteInput),
      ∃ pre mid post,
        routeUrl base input =
          pre ++ (input.start.2 ++ "," ++ input.start.1) ++ mid ++
            (input.stop.2 ++ "," ++ input.stop.1) ++ post) ∧
    containsStr
      (routeUrl "https://router.project-osrm.org"
        { start := ("40.7128", "-74.006"), stop := ("34.0522", "-118.2437"),
          mode := .driving })
      "-74.006,40.7128" = true ∧
    containsStr
      (routeUrl "https://router.project-osrm.org"
        { start := ("40.7128", "-74.006"), stop := ("34.0522", "-118.2437"),
          mode := .driving })
      "40.7128,-74.006" = false := by
  refine ⟨?_, by decide, by decide⟩
  intro base input
  refine ⟨base ++ "/route/v1/" ++ getOsrmProfile input.mode ++ "/", ";",
    "?overview=full&geometries=polyline&steps=true", ?_⟩
  simp only [routeUrl, strAppend_assoc]

/-- The maneuver types with a dedicated row in the lookup table. -/
def knownManeuverTypes : List String :=
  ["depart", "arrive", "turn", "continue", "merge", "fork", "roundabout",
   "exit roundabout", "new name", "end of road", "notification"]

/-- C5: `buildInstruction` returns exactly the fixed lookup table's
text for every maneuver type and optional modifier: the fixed rows, the
modifier-interpolating rows with and without a modifier, and the
default row `"{type} {modifier}"` / bare type for any other type. -/
theorem buildInstruction_table :
    (∀ mod : Option String,
      buildInstruction ⟨"depart", mod⟩ = "Depart" ∧
      buildInstruction ⟨"arrive", mod⟩ = "Arrive at destination" ∧
      buildInstruction ⟨"continue", mod⟩ = "Continue straight" ∧
      buildInstruction ⟨"roundabout", mod⟩ = "Enter roundabout" ∧
      buildInstruction ⟨"exit roundabout", mod⟩ = "Exit roundabout" ∧
      buildInstruction ⟨"new name", mod⟩ = "Continue") ∧
    (∀ s : String, s ≠ "" →
      buildInstruction ⟨"turn", some s⟩ = "Turn " ++ s ∧
      buildInstruction ⟨"merge", some s⟩ = jsTrim ("Merge " ++ s) ∧
      buildInstruction ⟨"fork", some s⟩ = "Take the " ++ s ∧
      buildInstruction ⟨"end of road", some s⟩ = "At end of road, turn " ++ s ∧
      buildInstruction ⟨"notification", some s⟩ = s) ∧
    (buildInstruction ⟨"turn", none⟩ = "Turn ahead" ∧
      buildInstruction ⟨"merge", none⟩ = "Merge" ∧
      buildInstruction ⟨"fork", none⟩ = "Take the fork" ∧
      buildInstruction ⟨"end of road", none⟩ = "At end of road, turn ahead" ∧
      buildInstruction ⟨"notification", none⟩ = "Continue") ∧
    (∀ t s, t ∉ knownManeuverTypes → s ≠ "" →
      buildInstruction ⟨t, some s⟩ = t ++ " " ++ s) ∧
    (∀ t, t ∉ knownManeuverTypes → buildInstruction ⟨t, none⟩ = t) := by
  refine ⟨fun mod => ⟨rfl, rfl, rfl, rfl, rfl, rfl⟩, ?_, ?_, ?_, ?_⟩
  · intro s hs
    refine ⟨?_, ?_, ?_, ?_, ?_⟩ <;> simp [buildInstruction, jsOr, hs]
  · refine ⟨rfl, by decide, rfl, rfl, rfl⟩
  · intro t s ht hs
    simp only [knownManeuverTypes, List.mem_cons, List.not_mem_nil, or_false,
      not_or] at ht
    obtain ⟨n1, n2, n3, n4, n5, n6, n7, n8, n9, n10, n11⟩ := ht
    unfold buildInstruction
    split <;> simp_all
  · intro t ht
    simp only [knownManeuverTypes, List.mem_cons, List.not_mem_nil, or_false,
      not_or] at ht
    obtain ⟨n1, n2, n3, n4, n5, n6, n7, n8, n9, n10, n11⟩ := ht
    unfold buildInstruction
    split <;> simp_all

/-- Witness for C5 at concrete maneuvers, including an unlisted type
(`"rotary"`) with and without a modifier. -/
theorem buildInstruction_table_witness :
    buildInstruction ⟨"turn", some "left"⟩ = "Turn left" ∧
    buildInstruction ⟨"rotary", some "right"⟩ = "rotary right" ∧
    buildInstruction ⟨"rotary", none⟩ = "rotary" :=
  ⟨(buildInstruction_table.2.1 "left" (by decide)).1,
   buildInstruction_table.2.2.2.1 "rotary" "right" (by decide) (by decide),
   buildInstruction_table.2.2.2.2 "rotary" (by decide)⟩

set_option maxRecDepth 20000 in
/-- C3 counterexample: at a concrete non-2xx Overpass response with
reason phrase `"Service Unavailable"` and body `"rate_limited"`, the
poi adapter's error message interpolates the response body text, not
the HTTP reason phrase — so the claim that every adapter's message
carries the reason phrase fails. -/
theorem adapter_http_error_reason_counterexample :
    (poiSearch
        { center := none, bbox := some ("40.0", "-75.0", "41.0", "-74.0"),
          tags := [("amenity", "cafe")], limit := 25 }
        (.ok { status := 503, statusText := "Service Unavailable",
               bodyText := "rate_limited", body := { elements := [] } })
        "T0").errMessage = some "Overpass API returned 503: rate_limited" ∧
    containsStr
      ((poiSearch
          { center := none, bbox := some ("40.0", "-75.0", "41.0", "-74.0"),
            tags := [("amenity", "cafe")], limit := 25 }
          (.ok { status := 503, statusText := "Service Unavailable",
                 bodyText := "rate_limited", body := { elements := [] } })
          "T0").errMessage.getD "")
      "Service Unavailable" = false := by
  exact ⟨by decide, by decide⟩

/-- C3 (amended): on a non-2xx upstream status each adapter returns an
error envelope with its adapter-specific code; geocode
(`NOMINATIM_ERROR`) and route (`OSRM_ERROR`) interpolate the upstream
numeric status and the HTTP reason phrase into the message, while
poi_search (`OVERPASS_ERROR`) interpolates the status and the response
*body text* in place of the reason phrase. -/
theorem adapter_http_error_messages :
    (∀ (input : GeocodeInput) (resp : HttpResponse (List NominatimSearchResult))
        (now : String), resp.isOk = false →
      geocode input (.ok resp) now =
        .failure
          { code := "NOMINATIM_ERROR"
            message := "Nominatim API returned " ++ toString resp.status ++
              ": " ++ resp.statusText }
          (nominatimErrMeta now)) ∧
    (∀ (resp : HttpResponse OsrmResponse) (now : String), resp.isOk = false →
      route (.ok resp) now =
        .failure
          { code := "OSRM_ERROR"
            message := "OSRM API returned " ++ toString resp.status ++ ": " ++
              resp.statusText }
          (osrmErrMeta now)) ∧
    (∀ (input : PoiSearchInput) (q : String)
        (resp : HttpResponse OverpassResponse) (now : String),
      buildOverpassQuery input = .ok q → resp.isOk = false →
      poiSearch input (.ok resp) now =
        .failure
          { code := "OVERPASS_ERROR"
            message := "Overpass API returned " ++ toString resp.status ++
              ": " ++ resp.bodyText }
          (overpassErrMeta now [])) := by
  refine ⟨?_, ?_, ?_⟩
  · intro input resp now h
    simp [geocode, h]
  · intro resp now h
    simp [route, h]
  · intro input q resp now hq h
    simp [poiSearch, hq, h]

/-- Witness for C3 (amended) at concrete 503 responses for all three
adapters. -/
theorem adapter_http_error_messages_witness :
    geocode { query := "Paris", bbox := none, country := none }
        (.ok { status := 503, statusText := "Service Unavailable",
               bodyText := "", body := [] }) "T0" =
      .failure
        { code := "NOMINATIM_ERROR"
          message := "Nominatim API returned 503: Service Unavailable" }
        (nominatimErrMeta "T0") ∧
    route
        (.ok { status := 503, statusText := "Service Unavailable",
               bodyText := "", body := { code := "Ok", routes := [] } }) "T0" =
      .failure
        { code := "OSRM_ERROR"
          message := "OSRM API returned 503: Service Unavailable" }
        (osrmErrMeta "T0") ∧
    poiSearch
        { center := some ("40.0", "-75.0"), bbox := none,
          tags := [("amenity", "cafe")], limit := 25 }
        (.ok { status := 503, statusText := "Service Unavailable",
               bodyText := "rate_limited", body := { elements := [] } })
        "T0" =
      .failure
        { code := "OVERPASS_ERROR"
          message := "Overpass API returned 503: rate_limited" }
        (overpassErrMeta "T0" []) :=
  ⟨adapter_http_error_messages.1 _ _ "T0" rfl,
   adapter_http_error_messages.2.1 _ "T0" rfl,
   adapter_http_error_messages.2.2
     { center := some ("40.0", "-75.0"), bbox := none,
       tags := [("amenity", "cafe")], limit := 25 }
     _ _ "T0" rfl rfl⟩

/-- The collection loop distributes over list concatenation. -/
theorem poiCollect_append (l₁ l₂ : List OverpassElement) :
    poiCollect (l₁ ++ l₂) =
      ((poiCollect l₁).1 ++ (poiCollect l₂).1,
       (poiCollect l₁).2 ++ (poiCollect l₂).2) := by
  induction l₁ with
  | nil => simp [poiCollect]
  | cons e rest ih =>
    simp only [List.cons_append, poiCollect]
    cases extractCoordinates e <;> simp [ih]

/-- C7: an Overpass element with neither a direct lat/lon pair nor a
center sub-object is dropped from the result list and contributes
exactly the warning `"Element <id> has no coordinates, skipping"` in
place; a 2xx call always stays `ok:true`; and with a single such element
the envelope is `ok:true` with no data and one warning naming the id. -/
theorem poi_missing_coordinates :
    (∀ (input : PoiSearchInput) (q : String)
        (resp : HttpResponse OverpassResponse) (now : String),
      buildOverpassQuery input = .ok q → resp.isOk = true →
      (poiSearch input (.ok resp) now).ok = true) ∧
    (∀ (pre post : List OverpassElement) (e : OverpassElement),
      extractCoordinates e = none →
      poiCollect (pre ++ e :: post) =
        ((poiCollect pre).1 ++ (poiCollect post).1,
         (poiCollect pre).2 ++
           ("Element " ++ toString e.id ++ " has no coordinates, skipping") ::
             (poiCollect post).2)) ∧
    (∀ (input : PoiSearchInput) (q : String) (e : OverpassElement)
        (now : String),
      buildOverpassQuery input = .ok q → extractCoordinates e = none →
      poiSearch input
          (.ok { status := 200, statusText := "OK", bodyText := "",
                 body := { elements := [e] } }) now =
        .success []
          (overpassOkMeta now
            ["Element " ++ toString e.id ++ " has no coordinates, skipping"])) := by
  refine ⟨?_, ?_, ?_⟩
  · intro input q resp now hq hok
    simp [poiSearch, hq, hok, Response.ok]
  · intro pre post e he
    rw [show pre ++ e :: post = pre ++ [e] ++ post by simp]
    rw [poiCollect_append, poiCollect_append]
    simp [poiCollect, he, noCoordWarning]
  · intro input q e now hq he
    simp [poiSearch, hq, HttpResponse.isOk, poiCollect, he, noCoordWarning]

/-- Witness for C7: one way element with tags but no coordinates yields
an `ok:true` envelope with empty data and exactly one warning naming
the element id. -/
theorem poi_missing_coordinates_witness :
    poiSearch
        { center := some ("40.0", "-75.0"), bbox := none,
          tags := [("amenity", "cafe")], limit := 25 }
        (.ok { status := 200, statusText := "OK", bodyText := "",
               body := { elements :=
                 [{ type := "way", id := 12345, lat := none, lon := none,
                    center := none, tags := some [("name", "Cafe X")] }] } })
        "T0" =
      .success []
        (overpassOkMeta "T0"
          ["Element 12345 has no coordinates, skipping"]) :=
  poi_missing_coordinates.2.2
    { center := some ("40.0", "-75.0"), bbox := none,
      tags := [("amenity", "cafe")], limit := 25 }
    _
    { type := "way", id := 12345, lat := none, lon := none,
      center := none, tags := some [("name", "Cafe X")] }
    "T0" rfl rfl

/-- C8: a 2xx reverse-geocode body carrying an `error` key yields an
`ok:false` envelope with code `NOMINATIM_NOT_FOUND`; a 2xx body without
that key yields an `ok:true` envelope with the single mapped result. -/
theorem reverse_geocode_error_key :
    (∀ (input : ReverseGeocodeInput)
        (resp : HttpResponse NominatimReverseResult) (now errText : String),
      resp.isOk = true → resp.body.error = some errText →
      reverseGeocode input (.ok resp) now =
        .failure
          { code := "NOMINATIM_NOT_FOUND"
            message := "No address found for coordinates: " ++ errText }
          (nominatimErrMeta now)) ∧
    (∀ (input : ReverseGeocodeInput)
        (resp : HttpResponse NominatimReverseResult) (now : String),
      resp.isOk = true → resp.body.error = none →
      reverseGeocode input (.ok resp) now =
        .success (mapReverseResult resp.body) (nominatimOkMeta now)) := by
  constructor
  · intro input resp now errText hok herr
    simp [reverseGeocode, hok, herr]
  · intro input resp now hok herr
    simp [reverseGeocode, hok, herr]

/-- Witness for C8: the spec's concrete not-found scenario
(`{error:"Unable to geocode"}`) and a concrete place record. -/
theorem reverse_geocode_error_key_witness :
    reverseGeocode { lat := "40.7128", lon := "-74.006" }
        (.ok { status := 200, statusText := "OK", bodyText := "",
               body := { error := some "Unable to geocode", lat := 0, lon := 0,
                         display_name := "", address := [], place_id := 0,
                         osm_type := none, osm_id := none } }) "T0" =
      .failure
        { code := "NOMINATIM_NOT_FOUND"
          message := "No address found for coordinates: Unable to geocode" }
        (nominatimErrMeta "T0") ∧
    reverseGeocode { lat := "40.7128", lon := "-74.006" }
        (.ok { status := 200, statusText := "OK", bodyText := "",
               body := { error := none, lat := 40.7128, lon := -74.006,
                         display_name := "New York, NY, USA",
                         address := [("city", "New York")], place_id := 123,
                         osm_type := some "node", osm_id := some 456 } }) "T0" =
      .success
        { lat := 40.7128, lon := -74.006, display_name := "New York, NY, USA",
          address := [("city", "New York")], place_id := 123,
          osm_type := some "node", osm_id := some 456 }
        (nominatimOkMeta "T0") :=
  ⟨reverse_geocode_error_key.1 { lat := "40.7128", lon := "-74.006" } _ "T0"
     "Unable to geocode" rfl rfl,
   reverse_geocode_error_key.2 { lat := "40.7128", lon := "-74.006" } _ "T0"
     rfl rfl⟩

/-- C9: a successful OSRM response maps the first route with
`distance_km = distance / 1000` and `duration_minutes = duration / 60`
(1500 m / 180 s give exactly 1.5 and 3); logical failures are checked
in order: `code ≠ "Ok"` yields `OSRM_ROUTE_ERROR` naming the received
code (even when the route list is empty), and only then an empty route
list yields `OSRM_NO_ROUTE`. -/
theorem route_conversion_and_failure_order :
    (∀ (resp : HttpResponse OsrmResponse) (now : String) (r : OsrmRoute)
        (rest : List OsrmRoute),
      resp.isOk = true → resp.body.code = "Ok" →
      resp.body.routes = r :: rest →
      route (.ok resp) now =
        .success
          { distance_km := r.distance / 1000
            duration_minutes := r.duration / 60
            geometry := r.geometry
            steps := routeSteps r.legs
            summary := String.intercalate " via "
              (r.legs.map (fun leg => leg.summary)) }
          (osrmOkMeta now)) ∧
    (∀ (resp : HttpResponse OsrmResponse) (now : String),
      resp.isOk = true → resp.body.code ≠ "Ok" →
      route (.ok resp) now =
        .failure
          { code := "OSRM_ROUTE_ERROR"
            message := "OSRM could not calculate route: " ++ resp.body.code }
          (osrmErrMeta now)) ∧
    (∀ (resp : HttpResponse OsrmResponse) (now : String),
      resp.isOk = true → resp.body.code = "Ok" → resp.body.routes = [] →
      route (.ok resp) now =
        .failure
          { code := "OSRM_NO_ROUTE"
            message := "No route found between the specified points" }
          (osrmErrMeta now)) ∧
    route
        (.ok { status := 200, statusText := "OK", bodyText := "",
               body := { code := "Ok",
                         routes := [{ distance := 1500, duration := 180,
                                      geometry := "p~iF~ps|U",
                                      legs := [] }] } })
        "T0" =
      .success
        { distance_km := 3 / 2, duration_minutes := 3,
          geometry := "p~iF~ps|U", steps := [], summary := "" }
        (osrmOkMeta "T0") := by
  refine ⟨?_, ?_, ?_, ?_⟩
  · intro resp now r rest hok hcode hroutes
    simp [route, hok, hcode, hroutes]
  · intro resp now hok hcode
    simp [route, hok, hcode]
  · intro resp now hok hcode hroutes
    simp [route, hok, hcode, hroutes]
  · show Response.success _ _ = _
    norm_num [route, HttpResponse.isOk, routeSteps, osrmOkMeta]
    rfl

/-- Witness for C9 at concrete responses: the spec's conversion
scenario, a `code:"NoRoute"` response with an empty route list (the
ordered check reports `OSRM_ROUTE_ERROR`, not `OSRM_NO_ROUTE`), and an
`"Ok"` response with an empty route list (`OSRM_NO_ROUTE`). -/
theorem route_conversion_and_failure_order_witness :
    route
        (.ok { status := 200, statusText := "OK", bodyText := "",
               body := { code := "NoRoute", routes := [] } }) "T0" =
      .failure
        { code := "OSRM_ROUTE_ERROR"
          message := "OSRM could not calculate route: NoRoute" }
        (osrmErrMeta "T0") ∧
    route
        (.ok { status := 200, statusText := "OK", bodyText := "",
               body := { code := "Ok", routes := [] } }) "T0" =
      .failure
        { code := "OSRM_NO_ROUTE"
          message := "No route found between the specified points" }
        (osrmErrMeta "T0") ∧
    route
        (.ok { status := 200, statusText := "OK", bodyText := "",
               body := { code := "Ok",
                         routes := [{ distance := 1500, duration := 180,
                                      geometry := "p~iF~ps|U",
                                      legs := [{ steps := [],
                                                 summary := "Main St" }] }] } })
        "T0" =
      .success
        { distance_km := 1500 / 1000, duration_minutes := 180 / 60,
          geometry := "p~iF~ps|U", steps := [], summary := "Main St" }
        (osrmOkMeta "T0") :=
  ⟨route_conversion_and_failure_order.2.1 _ "T0" rfl (by decide),
   route_conversion_and_failure_order.2.2.1 _ "T0" rfl rfl rfl,
   route_conversion_and_failure_order.1 _ "T0"
     { distance := 1500, duration := 180, geometry := "p~iF~ps|U",
       legs := [{ steps := [], summary := "Main St" }] }
     [] rfl rfl rfl⟩

/-- C10: every error envelope produced by any of the four adapters —
non-2xx status, upstream logical failure, or caught exception — carries
`meta.source` naming the adapter's upstream. -/
theorem adapter_error_meta_source :
    (∀ (input : GeocodeInput)
        (outcome : FetchOutcome (List NominatimSearchResult)) (now : String),
      (geocode input outcome now).ok = false →
      (geocode input outcome now).meta.source = some "nominatim") ∧
    (∀ (input : ReverseGeocodeInput)
        (outcome : FetchOutcome NominatimReverseResult) (now : String),
      (reverseGeocode input outcome now).ok = false →
      (reverseGeocode input outcome now).meta.source = some "nominatim") ∧
    (∀ (input : PoiSearchInput) (outcome : FetchOutcome OverpassResponse)
        (now : String),
      (poiSearch input outcome now).ok = false →
      (poiSearch input outcome now).meta.source = some "overpass") ∧
    (∀ (outcome : FetchOutcome OsrmResponse) (now : String),
      (route outcome now).ok = false →
      (route outcome now).meta.source = some "osrm") := by
  refine ⟨?_, ?_, ?_, ?_⟩
  · intro input outcome now _
    unfold geocode
    repeat' split
    all_goals rfl
  · intro input outcome now _
    unfold reverseGeocode
    repeat' split
    all_goals rfl
  · intro input outcome now _
    unfold poiSearch
    repeat' split
    all_goals rfl
  · intro outcome now _
    unfold route
    repeat' split
    all_goals rfl

/-- Witness for C10 at one concrete error envelope per adapter: a
thrown fetch error for geocode and reverse_geocode, a non-2xx response
for poi_search, and an upstream logical failure for route. -/
theorem adapter_error_meta_source_witness :
    (geocode { query := "Paris", bbox := none, country := none }
        (.threw (some "socket hang up")) "T0").meta.source = some "nominatim" ∧
    (reverseGeocode { lat := "1", lon := "2" }
        (.threw none) "T0").meta.source = some "nominatim" ∧
    (poiSearch
        { center := some ("1", "2"), bbox := none, tags := [], limit := 25 }
        (.ok { status := 504, statusText := "Gateway Timeout",
               bodyText := "timeout", body := { elements := [] } })
        "T0").meta.source = some "overpass" ∧
    (route
        (.ok { status := 200, statusText := "OK", bodyText := "",
               body := { code := "NoSegment", routes := [] } })
        "T0").meta.source = some "osrm" :=
  ⟨adapter_error_meta_source.1 _ (.threw (some "socket hang up")) "T0" rfl,
   adapter_error_meta_source.2.1 _ (.threw none) "T0" rfl,
   adapter_error_meta_source.2.2.1 _ _ "T0" (by decide),
   adapter_error_meta_source.2.2.2 _ "T0" (by decide)⟩

end OsmTools
